import Mathlib

/- Shallow embedding of src/StreamlitInterface.py: a single-page Streamlit
dashboard that reads one text input, calls a sentiment API over HTTP and
renders the JSON responses.  Python strings are modelled as Lean `String`
(sequences of Unicode code points), floats from the JSON payloads as `ℚ`,
and every rendering call of the script as an element of `UiElem`. -/

/-- Python `s.startswith(p)` on code-point lists. -/
def strStartsWith : List Char → List Char → Bool
  | _, [] => true
  | [], _ :: _ => false
  | c :: cs, p :: ps => c == p && strStartsWith cs ps

/-- Python `needle in hay` (contiguous substring test) on code-point lists. -/
def strContains : List Char → List Char → Bool
  | [], needle => strStartsWith [] needle
  | c :: t, needle => strStartsWith (c :: t) needle || strContains t needle

/-- Python `s.lower()`; ASCII case folding, which covers the sentiment
vocabulary the service uses. -/
def pyLower (s : String) : String := ⟨s.data.map Char.toLower⟩

/-- Line 18: `API_URL = os.getenv("API_URL", "http://127.0.0.1:8000")`.
The result of the environment lookup is passed in as an `Option String`. -/
def apiUrl (env : Option String) : String := env.getD "http://127.0.0.1:8000"

/-- One rendered Streamlit element, tagged by the call that produced it. -/
inductive UiElem where
  | success (msg : String)
  | error (msg : String)
  | warning (msg : String)
  | markdown (msg : String)
  | subheader (msg : String)
  | htmlFrame (content : String)
  | barChart (xs : List String) (ys : List ℚ) (colorMap : List (String × String))
  deriving DecidableEq

/-- Lines 21–25 of the script: the sidebar line showing the URL, then a
warning exactly when the URL contains the substring "localhost". -/
def startupRender (env : Option String) : List UiElem :=
  [UiElem.markdown ("🔗 **API utilisée :** `" ++ apiUrl env ++ "`")] ++
    (if strContains (apiUrl env).data "localhost".data
     then [UiElem.warning "⚠️ L\x27application est configurée pour le mode local."]
     else [])

/-- Spec-side notion, following the spec words "points to a loopback
address": the URL names `localhost`, the IPv4 loopback `127.0.0.1` or the
IPv6 loopback `::1`.  Used only to compare the spec sentence with the code. -/
def specLoopback (url : String) : Bool :=
  strContains url.data "localhost".data || strContains url.data "127.0.0.1".data ||
    strContains url.data "::1".data

/-- Color of the character counter. -/
inductive CounterColor where
  | green
  | orange
  | red
  deriving DecidableEq

/-- Lines 100–105: three-way threshold on `char_count`. -/
def counterColor (char_count : Nat) : CounterColor :=
  if char_count < 240 then CounterColor.green
  else if char_count ≤ 280 then CounterColor.orange
  else CounterColor.red

/-- Line 107: `text_valid = 0 < char_count <= 280`. -/
def text_valid (char_count : Nat) : Bool :=
  decide (0 < char_count) && decide (char_count ≤ 280)

/-- Streamlit button semantics: a disabled button never returns True. -/
def buttonPressed (clicked disabled : Bool) : Bool := clicked && !disabled

/-- Lines 114–120: the predict button passes `disabled = not text_valid`. -/
def predict_btn (clicked : Bool) (char_count : Nat) : Bool :=
  buttonPressed clicked (!text_valid char_count)

/-- Lines 121–126: the explain button passes `disabled = not text_valid`. -/
def explain_btn (clicked : Bool) (char_count : Nat) : Bool :=
  buttonPressed clicked (!text_valid char_count)

/-- An HTTP POST request the script can issue, with its JSON text field. -/
structure HttpRequest where
  path : String
  textBody : String
  deriving DecidableEq

/-- Line 140 and 143: the predict handler runs only under
`predict_btn and text_valid` and then posts the tweet text to `/predict`. -/
def predictRequest (clicked : Bool) (tweet_text : String) : Option HttpRequest :=
  if predict_btn clicked tweet_text.length && text_valid tweet_text.length
  then some ⟨"/predict", tweet_text⟩ else none

/-- Line 175 and 178: the explain handler runs only under
`explain_btn and text_valid` and then posts the tweet text to `/explain`. -/
def explainRequest (clicked : Bool) (tweet_text : String) : Option HttpRequest :=
  if explain_btn clicked tweet_text.length && text_valid tweet_text.length
  then some ⟨"/explain", tweet_text⟩ else none

/-- Outcome of the GET to `/health`: a transport exception or a status. -/
inductive HealthOutcome where
  | exn
  | resp (status : Nat)
  deriving DecidableEq

/-- Lines 77–84: the health probe branch. -/
def healthBadge : HealthOutcome → UiElem
  | HealthOutcome.exn =>
    UiElem.error "❌ Impossible de se connecter à l’API. Vérifiez qu’elle est lancée."
  | HealthOutcome.resp status =>
    if status == 200 then UiElem.success "✅ API connectée avec succès"
    else UiElem.error "⚠️ API injoignable"

/-- Parsed 200-response body of `/predict` (lines 146–149). -/
structure PredictBody where
  sentiment : String
  confidence : ℚ
  probability_positive : ℚ
  probability_negative : ℚ
  deriving DecidableEq

/-- Outcome of the POST to `/predict`.  `exn` covers any exception raised
inside the `try` block (transport failure, JSON or key errors), since the
`except` clause catches them all; its message is the shown exception text. -/
inductive PredictOutcome where
  | exn (msg : String)
  | resp (status : Nat) (body : PredictBody)
  deriving DecidableEq

/-- Rounding of `1000 * q` to the nearest integer, computed on the reduced
fraction: `thousandths q = ⌊1000 * q + 1/2⌋`. -/
def thousandths (q : ℚ) : ℤ := Int.fdiv (2000 * q.num + q.den) (2 * q.den)

/-- Python `format(q, ".1%")`: percent value with one decimal digit, then
a percent sign.  Rounds to nearest; at a decimal tie Python rounds to even
and this function rounds up, which no claim exercises. -/
def formatPct1 (q : ℚ) : String :=
  let t : ℤ := thousandths q
  toString (t / 10) ++ "." ++ toString (t % 10) ++ "%"

/-- Left-pads a number below 1000 to three digits. -/
def pad3 (n : ℕ) : String :=
  if n < 10 then "00" ++ toString n
  else if n < 100 then "0" ++ toString n
  else toString n

/-- Python `format(q, ".3f")`: signed fixed-point with three decimals.
Rounds to nearest, with the same tie caveat as `formatPct1`. -/
def format3f (q : ℚ) : String :=
  let t : ℤ := thousandths q
  if t < 0 then "-" ++ toString ((-t) / 1000) ++ "." ++ pad3 ((-t) % 1000).toNat
  else toString (t / 1000) ++ "." ++ pad3 (t % 1000).toNat

/-- Lines 151–154: success badge iff the lowercased sentiment starts with
"pos", error badge otherwise; both show the confidence as `.1%`. -/
def sentimentBadge (sentiment : String) (confidence : ℚ) : UiElem :=
  if strStartsWith (pyLower sentiment).data "pos".data
  then UiElem.success ("😊 **POSiTIF** (" ++ formatPct1 confidence ++ ")")
  else UiElem.error ("😞 **NÉGATIF** (" ++ formatPct1 confidence ++ ")")

/-- Lines 140–169: the predict click handler after the request returned. -/
def renderPredict : PredictOutcome → List UiElem
  | PredictOutcome.exn msg => [UiElem.error ("Erreur : " ++ msg)]
  | PredictOutcome.resp status body =>
    if status == 200 then
      [sentimentBadge body.sentiment body.confidence,
       UiElem.barChart ["Négatif", "Positif"]
         [body.probability_negative, body.probability_positive]
         [("Négatif", "red"), ("Positif", "green")]]
    else [UiElem.error "Erreur lors de la requête à l’API."]

/-- One `word`/`weight` pair of the explanation list (line 189). -/
structure ExplainItem where
  word : String
  weight : ℚ
  deriving DecidableEq

/-- Parsed 200-response body of `/explain` (lines 180–189). -/
structure ExplainBody where
  html_explanation : String
  explanation : List ExplainItem
  deriving DecidableEq

/-- Outcome of the POST to `/explain`, as for `PredictOutcome`. -/
inductive ExplainOutcome where
  | exn (msg : String)
  | resp (status : Nat) (body : ExplainBody)
  deriving DecidableEq

/-- Line 190: `color = "green" if item["weight"] > 0 else "red"`. -/
def weightColor (w : ℚ) : String := if w > 0 then "green" else "red"

/-- Lines 190–192: the markdown line rendered for one explanation item. -/
def itemLine (item : ExplainItem) : UiElem :=
  UiElem.markdown ("- <span style=\x27color:" ++ weightColor item.weight ++ "\x27>" ++
    item.word ++ "</span> → " ++ format3f item.weight)

/-- Lines 175–196: the explain click handler after the request returned. -/
def renderExplain : ExplainOutcome → List UiElem
  | ExplainOutcome.exn msg => [UiElem.error ("Erreur : " ++ msg)]
  | ExplainOutcome.resp status body =>
    if status == 200 then
      [UiElem.subheader "📘 Explication LIME", UiElem.htmlFrame body.html_explanation] ++
        body.explanation.map itemLine
    else [UiElem.error "⚠️ Erreur lors de la génération de l’explication LIME."]

/-- A visible error message occurs among the rendered elements. -/
def hasErrorMsg (l : List UiElem) : Prop := ∃ m, UiElem.error m ∈ l

/-- A warning element occurs among the rendered elements. -/
def warningShown (l : List UiElem) : Bool :=
  l.any (fun e => match e with | UiElem.warning _ => true | _ => false)

/-- A string whose lowercase form starts with "neg" cannot start with "pos":
its first code point is the letter n. -/
lemma neg_prefix_not_pos (l : List Char) (h : strStartsWith l "neg".data = true) :
    strStartsWith l "pos".data = false := by
  cases l with
  | nil => exact absurd h (by decide)
  | cons c cs =>
    have h' : ((c == 'n') && strStartsWith cs ['e', 'g']) = true := h
    have hc : c = 'n' := eq_of_beq ((Bool.and_eq_true _ _).mp h').1
    subst hc
    rfl

/-- C1 (counterexample): with `API_URL` unset the value defaults to
`http://127.0.0.1:8000`, which points to a loopback address in the spec
sense, yet the startup render contains no warning element — the code only
warns when the URL contains the substring "localhost". -/
theorem default_loopback_no_warning :
    apiUrl none = "http://127.0.0.1:8000" ∧
    specLoopback (apiUrl none) = true ∧
    warningShown (startupRender none) = false := by decide

/-- C1 (amended): with `API_URL` unset the value defaults to
`http://127.0.0.1:8000`, and the startup warning is shown exactly when the
resulting URL contains the substring "localhost"; in particular the default
loopback URL produces no warning. -/
theorem localhost_warning_iff (env : Option String) :
    apiUrl none = "http://127.0.0.1:8000" ∧
    (warningShown (startupRender env) = true ↔
      strContains (apiUrl env).data "localhost".data = true) := by
  refine ⟨rfl, ?_⟩
  rcases h : strContains (apiUrl env).data "localhost".data with _ | _ <;>
    simp [startupRender, warningShown, h]

/-- C2: both action buttons are enabled exactly when `0 < L ≤ 280`, a pressed
button implies a valid length, and an empty or over-limit text yields no
`/predict` or `/explain` request at all. -/
theorem action_buttons_gating (L : Nat) (clicked : Bool) (t : String)
    (h : t.length = 0 ∨ 280 < t.length) :
    (text_valid L = true ↔ 0 < L ∧ L ≤ 280) ∧
    (predict_btn clicked L = true → 0 < L ∧ L ≤ 280) ∧
    (explain_btn clicked L = true → 0 < L ∧ L ≤ 280) ∧
    predictRequest clicked t = none ∧ explainRequest clicked t = none := by
  have hv : ∀ n : Nat, text_valid n = true ↔ 0 < n ∧ n ≤ 280 := by
    intro n; simp [text_valid]
  have hinv : text_valid t.length = false := by
    rcases h with h | h
    · simp [text_valid, h]
    · simp [text_valid]; omega
  refine ⟨hv L, ?_, ?_, ?_, ?_⟩
  · intro hp
    have : text_valid L = true := by
      have := hp
      simp [predict_btn, buttonPressed] at this
      exact this.2
    exact (hv L).mp this
  · intro hp
    have : text_valid L = true := by
      have := hp
      simp [explain_btn, buttonPressed] at this
      exact this.2
    exact (hv L).mp this
  · simp [predictRequest, predict_btn, buttonPressed, hinv]
  · simp [explainRequest, explain_btn, buttonPressed, hinv]

/-- C2 (witness): at length 5 the buttons are enabled, and the empty text
triggers no request even when clicked. -/
theorem action_buttons_gating_witness :
    ((text_valid 5 = true ↔ 0 < 5 ∧ 5 ≤ 280) ∧
      (predict_btn true 5 = true → 0 < 5 ∧ 5 ≤ 280) ∧
      (explain_btn true 5 = true → 0 < 5 ∧ 5 ≤ 280) ∧
      predictRequest true "" = none ∧ explainRequest true "" = none) :=
  action_buttons_gating 5 true "" (Or.inl (by decide))

/-- C3: the character counter is green exactly below 240 characters and
orange exactly between 240 and 280 characters inclusive. -/
theorem counter_color_thresholds (L : Nat) :
    (counterColor L = CounterColor.green ↔ L < 240) ∧
    (counterColor L = CounterColor.orange ↔ 240 ≤ L ∧ L ≤ 280) := by
  unfold counterColor
  split_ifs with h1 h2 <;> refine ⟨?_, ?_⟩ <;> simp <;> omega

/-- C4: once the input is capped at 280 characters, the red branch of the
counter display cannot be taken. -/
theorem red_branch_unreachable (L : Nat) (h : L ≤ 280) :
    counterColor L ≠ CounterColor.red := by
  unfold counterColor
  split_ifs with h1
  · simp
  · simp

/-- C4 (witness): at the cap itself the counter is not red. -/
theorem red_branch_unreachable_witness : counterColor 280 ≠ CounterColor.red :=
  red_branch_unreachable 280 (by decide)

/-- C5: on a 200 response with sentiment "positive" and confidence 0.87 the
handler renders the success badge showing 87.0% and the two-bar chart with
heights 0.13 (negative, red) and 0.87 (positive, green). -/
theorem predict_positive_87 :
    renderPredict (PredictOutcome.resp 200
        ⟨"positive", mkRat 87 100, mkRat 87 100, mkRat 13 100⟩) =
      [UiElem.success "😊 **POSiTIF** (87.0%)",
       UiElem.barChart ["Négatif", "Positif"] [mkRat 13 100, mkRat 87 100]
         [("Négatif", "red"), ("Positif", "green")]] := by decide

/-- C6: any 200 response whose sentiment starts, case-insensitively, with
"neg" renders the error badge as its first element. -/
theorem neg_sentiment_error_badge (body : PredictBody)
    (h : strStartsWith (pyLower body.sentiment).data "neg".data = true) :
    (renderPredict (PredictOutcome.resp 200 body)).head? =
      some (UiElem.error ("😞 **NÉGATIF** (" ++ formatPct1 body.confidence ++ ")")) := by
  have hpos := neg_prefix_not_pos _ h
  cases body with
  | mk s conf pp pn => simp [renderPredict, sentimentBadge, hpos]

/-- C6 (witness): the sentiment "Negative" yields the error badge. -/
theorem neg_sentiment_error_badge_witness :
    (renderPredict (PredictOutcome.resp 200
        ⟨"Negative", mkRat 87 100, mkRat 87 100, mkRat 13 100⟩)).head? =
      some (UiElem.error "😞 **NÉGATIF** (87.0%)") := by
  rw [neg_sentiment_error_badge
    ⟨"Negative", mkRat 87 100, mkRat 87 100, mkRat 13 100⟩ (by decide)]
  decide

/-- C7: a non-200 health response renders the unreachable badge, a transport
exception renders the connection-error badge, and the two are distinct
elements. -/
theorem health_badges_distinct (s : Nat) (h : s ≠ 200) :
    healthBadge (HealthOutcome.resp s) = UiElem.error "⚠️ API injoignable" ∧
    healthBadge HealthOutcome.exn =
      UiElem.error "❌ Impossible de se connecter à l’API. Vérifiez qu’elle est lancée." ∧
    UiElem.error "⚠️ API injoignable" ≠
      UiElem.error "❌ Impossible de se connecter à l’API. Vérifiez qu’elle est lancée." := by
  have hb : (s == 200) = false := by simpa using h
  exact ⟨by simp [healthBadge, hb], rfl, by decide⟩

/-- C7 (witness): status 404 against the transport-exception badge. -/
theorem health_badges_distinct_witness :
    healthBadge (HealthOutcome.resp 404) = UiElem.error "⚠️ API injoignable" ∧
    healthBadge HealthOutcome.exn =
      UiElem.error "❌ Impossible de se connecter à l’API. Vérifiez qu’elle est lancée." ∧
    UiElem.error "⚠️ API injoignable" ≠
      UiElem.error "❌ Impossible de se connecter à l’API. Vérifiez qu’elle est lancée." :=
  health_badges_distinct 404 (by decide)

/-- C8: for each of the three network calls, both a transport exception and
a non-200 status render a visible error message; every outcome is handled by
a total rendering function, so no failure is fatal. -/
theorem network_failures_visible (hs ps es : Nat) (e1 e2 : String)
    (pb : PredictBody) (eb : ExplainBody)
    (h1 : hs ≠ 200) (h2 : ps ≠ 200) (h3 : es ≠ 200) :
    hasErrorMsg [healthBadge (HealthOutcome.resp hs)] ∧
    hasErrorMsg [healthBadge HealthOutcome.exn] ∧
    hasErrorMsg (renderPredict (PredictOutcome.exn e1)) ∧
    hasErrorMsg (renderPredict (PredictOutcome.resp ps pb)) ∧
    hasErrorMsg (renderExplain (ExplainOutcome.exn e2)) ∧
    hasErrorMsg (renderExplain (ExplainOutcome.resp es eb)) := by
  have hb1 : (hs == 200) = false := by simpa using h1
  have hb2 : (ps == 200) = false := by simpa using h2
  have hb3 : (es == 200) = false := by simpa using h3
  refine ⟨⟨"⚠️ API injoignable", ?_⟩,
    ⟨"❌ Impossible de se connecter à l’API. Vérifiez qu’elle est lancée.", ?_⟩,
    ⟨"Erreur : " ++ e1, ?_⟩, ⟨"Erreur lors de la requête à l’API.", ?_⟩,
    ⟨"Erreur : " ++ e2, ?_⟩,
    ⟨"⚠️ Erreur lors de la génération de l’explication LIME.", ?_⟩⟩ <;>
    simp [healthBadge, renderPredict, renderExplain, hb1, hb2, hb3]

/-- C8 (witness): concrete failing outcomes for all three calls. -/
theorem network_failures_visible_witness :
    hasErrorMsg [healthBadge (HealthOutcome.resp 500)] ∧
    hasErrorMsg [healthBadge HealthOutcome.exn] ∧
    hasErrorMsg (renderPredict (PredictOutcome.exn "ConnectionError")) ∧
    hasErrorMsg (renderPredict (PredictOutcome.resp 404
      ⟨"positive", mkRat 87 100, mkRat 87 100, mkRat 13 100⟩)) ∧
    hasErrorMsg (renderExplain (ExplainOutcome.exn "Timeout")) ∧
    hasErrorMsg (renderExplain (ExplainOutcome.resp 503 ⟨"", []⟩)) :=
  network_failures_visible 500 404 503 "ConnectionError" "Timeout"
    ⟨"positive", mkRat 87 100, mkRat 87 100, mkRat 13 100⟩ ⟨"", []⟩
    (by decide) (by decide) (by decide)

/-- C9: the mocked explanation renders "love" (weight 0.42) in green and
"bad" (weight -0.31) in red, color-coded by the sign of the weight. -/
theorem explain_weight_colors :
    renderExplain (ExplainOutcome.resp 200
        ⟨"<div></div>", [⟨"love", mkRat 42 100⟩, ⟨"bad", mkRat (-31) 100⟩]⟩) =
      [UiElem.subheader "📘 Explication LIME", UiElem.htmlFrame "<div></div>",
       UiElem.markdown "- <span style=\x27color:green\x27>love</span> → 0.420",
       UiElem.markdown "- <span style=\x27color:red\x27>bad</span> → -0.310"] := by decide

/-- C10: the error badge is the catch-all of the predict renderer — any 200
response whose lowercased sentiment does not start with "pos" renders it —
and the first rendered element is always one of the two badges. -/
theorem negative_badge_catch_all (body : PredictBody)
    (h : strStartsWith (pyLower body.sentiment).data "pos".data = false) :
    (renderPredict (PredictOutcome.resp 200 body)).head? =
      some (UiElem.error ("😞 **NÉGATIF** (" ++ formatPct1 body.confidence ++ ")")) ∧
    ∀ b : PredictBody,
      (∃ m, (renderPredict (PredictOutcome.resp 200 b)).head? = some (UiElem.success m)) ∨
      (∃ m, (renderPredict (PredictOutcome.resp 200 b)).head? = some (UiElem.error m)) := by
  constructor
  · cases body with
    | mk s conf pp pn => simp [renderPredict, sentimentBadge, h]
  · intro b
    cases b with
    | mk s conf pp pn =>
      by_cases hb : strStartsWith (pyLower s).data "pos".data = true
      · exact Or.inl ⟨"😊 **POSiTIF** (" ++ formatPct1 conf ++ ")",
          by simp [renderPredict, sentimentBadge, hb]⟩
      · have hb' : strStartsWith (pyLower s).data "pos".data = false := by
          simpa using hb
        exact Or.inr ⟨"😞 **NÉGATIF** (" ++ formatPct1 conf ++ ")",
          by simp [renderPredict, sentimentBadge, hb']⟩

/-- C10 (witness): the out-of-vocabulary sentiment "neutral" renders the
error badge. -/
theorem negative_badge_catch_all_witness :
    (renderPredict (PredictOutcome.resp 200
        ⟨"neutral", mkRat 50 100, mkRat 50 100, mkRat 50 100⟩)).head? =
      some (UiElem.error "😞 **NÉGATIF** (50.0%)") := by
  rw [(negative_badge_catch_all
    ⟨"neutral", mkRat 50 100, mkRat 50 100, mkRat 50 100⟩ (by decide)).1]
  decide

